import Mathlib

/-!
Shallow embedding of the Tourism-Analytics-Project repository
(`src/dataset/generate_tourism_dataset.py` and `src/dataset/compatibility_check.py`)
together with theorems settling the specification claims.

Modelling conventions:
* Python floats are modelled as exact rationals (`ℚ`).
* `np.random.normal(mu, sigma)` is modelled as `mu + sigma * z` where `z` is the
  standard-normal draw supplied by the random source; `np.random.uniform(a, b)` is
  modelled as `a + (b - a) * u` where `u` is the unit-interval draw supplied by the
  random source.  The seeded pseudo-random stream is an explicit parameter: every
  draw the Python code takes from the (globally seeded) NumPy generator is taken
  here from an explicit function of the draw's position, so a run is a pure
  function of the seed and of the PRNG algorithm.
* Python `int(x)` (truncation toward zero) is `pyInt`; Python `round(x, n)`
  (round-half-to-even at the n-th decimal) is `pyRound n`.
-/

set_option maxRecDepth 4000

/-- Python `int(x)`: truncation toward zero. -/
def pyInt (q : ℚ) : ℤ :=
  if q < 0 then ⌈q⌉ else ⌊q⌋

/-- Round a rational to the nearest integer, halves to even (Python / IEEE rounding). -/
def pyRoundInt (y : ℚ) : ℤ :=
  if y - ⌊y⌋ < 1/2 then ⌊y⌋
  else if 1/2 < y - ⌊y⌋ then ⌊y⌋ + 1
  else if ⌊y⌋ % 2 = 0 then ⌊y⌋ else ⌊y⌋ + 1

/-- Python `round(q, n)`: round to `n` decimal places, halves to even. -/
def pyRound (n : ℕ) (q : ℚ) : ℚ :=
  (pyRoundInt (q * 10 ^ n) : ℚ) / 10 ^ n

/-- `np.random.normal(mu, sigma)` given the standard-normal draw `z`. -/
def normalDraw (mu sigma z : ℚ) : ℚ := mu + sigma * z

/-- `np.random.uniform(a, b)` given the unit-interval draw `u`. -/
def unifDraw (a b u : ℚ) : ℚ := a + (b - a) * u

/-- Python `country[:3].upper()`: the first three characters, upper-cased.
Python slices by code point and `str.upper` agrees with `Char.toUpper` on the
ASCII country names of the static data. -/
def country_code (s : String) : String := ⟨(s.data.take 3).map Char.toUpper⟩

/-- One entry of the static `countries_data` dictionary
(`generate_tourism_dataset.py`, lines 18-97). -/
structure Country where
  name : String
  region : String
  population : ℕ
  gdp_per_capita : ℕ
  tourism_maturity : String
deriving DecidableEq, Repr

/-- The static `countries_data` dictionary, in the source's insertion order. -/
def countries_data : List Country := [
  ⟨"France", "Europe", 67390000, 42000, "mature"⟩,
  ⟨"Spain", "Europe", 47350000, 30000, "mature"⟩,
  ⟨"Italy", "Europe", 60360000, 35000, "mature"⟩,
  ⟨"Germany", "Europe", 83190000, 48000, "mature"⟩,
  ⟨"United Kingdom", "Europe", 67220000, 45000, "mature"⟩,
  ⟨"Netherlands", "Europe", 17130000, 52000, "mature"⟩,
  ⟨"Switzerland", "Europe", 8650000, 85000, "mature"⟩,
  ⟨"Austria", "Europe", 9006000, 50000, "mature"⟩,
  ⟨"Greece", "Europe", 10423000, 20000, "mature"⟩,
  ⟨"Portugal", "Europe", 10196000, 25000, "mature"⟩,
  ⟨"Poland", "Eastern Europe", 38386000, 18000, "emerging"⟩,
  ⟨"Czech Republic", "Eastern Europe", 10700000, 23000, "emerging"⟩,
  ⟨"Hungary", "Eastern Europe", 9773000, 17000, "emerging"⟩,
  ⟨"Romania", "Eastern Europe", 19240000, 14000, "emerging"⟩,
  ⟨"Croatia", "Eastern Europe", 4105000, 17000, "emerging"⟩,
  ⟨"United States", "North America", 331000000, 65000, "mature"⟩,
  ⟨"Canada", "North America", 38000000, 45000, "mature"⟩,
  ⟨"Mexico", "North America", 128900000, 10000, "emerging"⟩,
  ⟨"Costa Rica", "Central America", 5094000, 12000, "emerging"⟩,
  ⟨"Panama", "Central America", 4315000, 15000, "emerging"⟩,
  ⟨"Guatemala", "Central America", 17920000, 5000, "emerging"⟩,
  ⟨"Jamaica", "Caribbean", 2961000, 5500, "emerging"⟩,
  ⟨"Dominican Republic", "Caribbean", 10850000, 8000, "emerging"⟩,
  ⟨"Bahamas", "Caribbean", 393000, 32000, "mature"⟩,
  ⟨"Cuba", "Caribbean", 11330000, 9000, "emerging"⟩,
  ⟨"Barbados", "Caribbean", 287000, 18000, "mature"⟩,
  ⟨"China", "Asia", 1402000000, 12000, "emerging"⟩,
  ⟨"Japan", "Asia", 125800000, 40000, "mature"⟩,
  ⟨"South Korea", "Asia", 51270000, 35000, "mature"⟩,
  ⟨"Thailand", "Asia", 69800000, 8000, "emerging"⟩,
  ⟨"Singapore", "Asia", 5850000, 65000, "mature"⟩,
  ⟨"Malaysia", "Asia", 32700000, 12000, "emerging"⟩,
  ⟨"Vietnam", "Asia", 97340000, 4000, "emerging"⟩,
  ⟨"India", "Asia", 1380000000, 2000, "emerging"⟩,
  ⟨"Indonesia", "Asia", 273500000, 4000, "emerging"⟩,
  ⟨"Philippines", "Asia", 109600000, 3500, "emerging"⟩,
  ⟨"Nepal", "Asia", 29140000, 1200, "emerging"⟩,
  ⟨"Sri Lanka", "Asia", 21800000, 4000, "emerging"⟩,
  ⟨"United Arab Emirates", "Middle East", 9890000, 43000, "emerging"⟩,
  ⟨"Saudi Arabia", "Middle East", 34800000, 23000, "emerging"⟩,
  ⟨"Qatar", "Middle East", 2880000, 61000, "emerging"⟩,
  ⟨"Turkey", "Middle East", 84340000, 9000, "emerging"⟩,
  ⟨"Israel", "Middle East", 9217000, 43000, "mature"⟩,
  ⟨"Jordan", "Middle East", 10200000, 4200, "emerging"⟩,
  ⟨"Australia", "Oceania", 25690000, 55000, "mature"⟩,
  ⟨"New Zealand", "Oceania", 5080000, 42000, "mature"⟩,
  ⟨"Fiji", "Pacific Islands", 896000, 6000, "emerging"⟩,
  ⟨"Samoa", "Pacific Islands", 198000, 4300, "emerging"⟩,
  ⟨"Papua New Guinea", "Pacific Islands", 8947000, 2500, "emerging"⟩,
  ⟨"South Africa", "Africa", 59310000, 6000, "emerging"⟩,
  ⟨"Morocco", "Africa", 36910000, 3500, "emerging"⟩,
  ⟨"Egypt", "Africa", 102300000, 3000, "emerging"⟩,
  ⟨"Kenya", "Africa", 53770000, 2000, "emerging"⟩,
  ⟨"Nigeria", "Sub-Saharan Africa", 206100000, 2200, "emerging"⟩,
  ⟨"Ethiopia", "Sub-Saharan Africa", 114900000, 900, "emerging"⟩,
  ⟨"Tanzania", "Sub-Saharan Africa", 59730000, 1100, "emerging"⟩,
  ⟨"Ghana", "Sub-Saharan Africa", 31070000, 2200, "emerging"⟩,
  ⟨"Brazil", "South America", 212600000, 9000, "emerging"⟩,
  ⟨"Argentina", "South America", 45196000, 10000, "emerging"⟩,
  ⟨"Chile", "South America", 19116000, 15000, "emerging"⟩,
  ⟨"Peru", "South America", 32972000, 7000, "emerging"⟩,
  ⟨"Colombia", "South America", 50880000, 6000, "emerging"⟩,
  ⟨"Ecuador", "South America", 17640000, 6000, "emerging"⟩,
  ⟨"Uruguay", "South America", 3474000, 17000, "emerging"⟩,
  ⟨"Paraguay", "South America", 7132000, 5500, "emerging"⟩]

/-- `years = [2018, 2019, 2020, 2021, 2022]` (line 100). -/
def years : List ℕ := [2018, 2019, 2020, 2021, 2022]

/-- `months = list(range(1, 13))` (line 101). -/
def months : List ℕ := [1, 2, 3, 4, 5, 6, 7, 8, 9, 10, 11, 12]

/-- The `regional_multipliers` dictionary (lines 119-132).  Every region occurring
in `countries_data` is a key of the dictionary; the fallback 0 is never reached. -/
def regional_multipliers (region : String) : ℚ :=
  if region = "Europe" then 1.2
  else if region = "Eastern Europe" then 0.9
  else if region = "North America" then 1.0
  else if region = "Central America" then 0.7
  else if region = "Caribbean" then 0.8
  else if region = "Asia" then 0.8
  else if region = "Middle East" then 0.6
  else if region = "Oceania" then 0.4
  else if region = "Pacific Islands" then 0.3
  else if region = "Africa" then 0.3
  else if region = "Sub-Saharan Africa" then 0.2
  else if region = "South America" then 0.5
  else 0

/-- The `seasonal_patterns` dictionary (lines 137-150): twelve monthly multipliers
per region.  The fallback `[]` is never reached for regions of `countries_data`. -/
def seasonal_patterns (region : String) : List ℚ :=
  if region = "Europe" then [0.6, 0.5, 0.7, 0.8, 1.0, 1.2, 1.5, 1.4, 1.1, 0.9, 0.7, 0.6]
  else if region = "Eastern Europe" then [0.5, 0.4, 0.6, 0.7, 0.9, 1.1, 1.4, 1.3, 1.0, 0.8, 0.6, 0.5]
  else if region = "North America" then [0.7, 0.6, 0.8, 0.9, 1.0, 1.1, 1.3, 1.2, 1.0, 0.9, 0.8, 0.7]
  else if region = "Central America" then [0.8, 0.7, 0.9, 1.0, 1.1, 1.0, 1.2, 1.1, 1.0, 0.9, 0.8, 0.8]
  else if region = "Caribbean" then [1.0, 1.0, 1.1, 1.1, 1.2, 1.2, 1.3, 1.3, 1.2, 1.1, 1.0, 1.0]
  else if region = "Asia" then [0.8, 0.7, 0.9, 1.0, 1.1, 1.0, 1.2, 1.1, 1.0, 0.9, 0.8, 0.8]
  else if region = "Middle East" then [1.0, 0.9, 1.1, 1.0, 0.8, 0.6, 0.5, 0.6, 0.8, 1.0, 1.1, 1.0]
  else if region = "Oceania" then [1.2, 1.1, 1.0, 0.9, 0.8, 0.7, 0.6, 0.7, 0.8, 0.9, 1.0, 1.1]
  else if region = "Pacific Islands" then [1.1, 1.1, 1.0, 0.9, 0.8, 0.8, 0.9, 1.0, 1.1, 1.1, 1.1, 1.1]
  else if region = "Africa" then [0.9, 0.8, 1.0, 1.1, 1.0, 0.9, 0.8, 0.9, 1.0, 1.1, 1.0, 0.9]
  else if region = "Sub-Saharan Africa" then [0.8, 0.7, 0.9, 1.0, 1.1, 1.0, 0.9, 0.8, 0.9, 1.0, 1.1, 1.0]
  else if region = "South America" then [0.8, 0.7, 0.9, 1.0, 1.1, 1.0, 0.9, 0.8, 0.9, 1.0, 1.1, 1.0]
  else []

/-- `seasonal_patterns[region][month - 1]` (line 166). -/
def seasonal_multiplier (region : String) (month : ℕ) : ℚ :=
  (seasonal_patterns region).getD (month - 1) 0

/-- The `year_multipliers` dictionary (lines 153-159); 0 for years outside it. -/
def year_multipliers (year : ℕ) : ℚ :=
  if year = 2018 then 1.0
  else if year = 2019 then 1.05
  else if year = 2020 then 0.3
  else if year = 2021 then 0.6
  else if year = 2022 then 0.85
  else 0

/-- `base_arrivals` for a country (lines 112-134): `population * 0.1`, scaled by
1.5 for mature / 0.8 for emerging maturity, then by the regional multiplier. -/
def base_arrivals (c : Country) : ℚ :=
  (if c.tourism_maturity = "mature" then (c.population : ℚ) * 0.1 * 1.5
   else if c.tourism_maturity = "emerging" then (c.population : ℚ) * 0.1 * 0.8
   else (c.population : ℚ) * 0.1) * regional_multipliers c.region

/-- `base_monthly = base_arrivals / 12 * seasonal_multiplier * year_multiplier`
(line 169). -/
def base_monthly (c : Country) (year month : ℕ) : ℚ :=
  base_arrivals c / 12 * seasonal_multiplier c.region month * year_multipliers year

/-- `arrivals = max(0, base_monthly * (1 + variation))` with
`variation = np.random.normal(0, 0.1)` (lines 172-173); still a float here,
truncated to `int` only when the record is stored. -/
def raw_arrivals (c : Country) (year month : ℕ) (z : ℚ) : ℚ :=
  max 0 (base_monthly c year month * (1 + normalDraw 0 0.1 z))

/-- The growth-rate computation (lines 176-181): for years after 2018 the
year-multiplier delta in percent plus `N(0,5)` noise, otherwise `N(2,3)`. -/
def growth_rate_raw (year : ℕ) (z : ℚ) : ℚ :=
  if 2018 < year then
    (year_multipliers year - year_multipliers (year - 1)) / year_multipliers (year - 1) * 100
      + normalDraw 0 5 z
  else normalDraw 2 3 z

/-- `month in [6, 7, 8, 12]` — the peak-month test used throughout the source. -/
def is_peak_month (month : ℕ) : Bool :=
  [6, 7, 8, 12].contains month

/-- Pre-truncation peak-season arrivals (lines 190-198). -/
def peak_raw (c : Country) (year month : ℕ) (z u : ℚ) : ℚ :=
  (if is_peak_month month then raw_arrivals c year month z * 1.5
   else raw_arrivals c year month z * 0.8) * unifDraw 0.9 1.1 u

/-- Pre-truncation off-season arrivals (lines 190-199). -/
def off_raw (c : Country) (year month : ℕ) (z u : ℚ) : ℚ :=
  (if is_peak_month month then raw_arrivals c year month z * 0.6
   else raw_arrivals c year month z * 1.2) * unifDraw 0.9 1.1 u

/-- The random draws one base-table record consumes, in the order the source
takes them from the seeded generator: the arrivals variation `N(0,0.1)`, the
growth-rate draw, the diversity `uniform(0.4,0.9)`, and the two peak/off-peak
`uniform(0.9,1.1)` draws.  Normal components are standard-normal draws, uniform
components are unit-interval draws. -/
structure Draws where
  zVar : ℚ
  zGrowth : ℚ
  uDiv : ℚ
  uPeak : ℚ
  uOff : ℚ
deriving DecidableEq, Repr

/-- One row of the base arrivals table (lines 201-216). -/
structure ArrivalRecord where
  Country : String
  Country_Code : String
  Region : String
  Year : ℕ
  Month : ℕ
  Arrivals : ℤ
  Arrivals_Growth_Rate : ℚ
  Arrivals_Per_Capita : ℚ
  Source_Market_Diversity : ℚ
  Peak_Season_Arrivals : ℤ
  Off_Season_Arrivals : ℤ
  Population : ℕ
  GDP_Per_Capita : ℕ
  Tourism_Maturity : String
deriving DecidableEq, Repr, Inhabited

/-- Build one base-table record (the body of the inner loop, lines 162-216). -/
def mkRecord (c : Country) (year month : ℕ) (d : Draws) : ArrivalRecord where
  Country := c.name
  Country_Code := country_code c.name
  Region := c.region
  Year := year
  Month := month
  Arrivals := pyInt (raw_arrivals c year month d.zVar)
  Arrivals_Growth_Rate := pyRound 1 (growth_rate_raw year d.zGrowth)
  Arrivals_Per_Capita := pyRound 6 (raw_arrivals c year month d.zVar / (c.population : ℚ))
  Source_Market_Diversity := pyRound 2 (unifDraw 0.4 0.9 d.uDiv)
  Peak_Season_Arrivals := pyInt (peak_raw c year month d.zVar d.uPeak)
  Off_Season_Arrivals := pyInt (off_raw c year month d.zVar d.uOff)
  Population := c.population
  GDP_Per_Capita := c.gdp_per_capita
  Tourism_Maturity := c.tourism_maturity

/-- The (country, year, month) iteration of the three nested loops
(lines 105, 162, 165), in source order. -/
def indexRows : List (Country × ℕ × ℕ) :=
  countries_data.flatMap fun c => years.flatMap fun y => months.map fun m => (c, y, m)

/-- Build records for a triple list, numbering the records from `i` so that each
record receives its own draws from the run's seeded stream. -/
def buildAux (rng : ℕ → Draws) : ℕ → List (Country × ℕ × ℕ) → List ArrivalRecord
  | _, [] => []
  | i, t :: ts => mkRecord t.1 t.2.1 t.2.2 (rng i) :: buildAux rng (i + 1) ts

/-- `generate_tourism_dataset` (lines 11-218) as a function of the per-record
draws of the seeded random stream. -/
def generate_tourism_dataset (rng : ℕ → Draws) : List ArrivalRecord :=
  buildAux rng 0 indexRows

/-- The (Country, Year, Month) key of a base-table record. -/
def arrival_key (r : ArrivalRecord) : String × ℕ × ℕ :=
  (r.Country, r.Year, r.Month)

-- Sanity: a record can be evaluated concretely.
example : (mkRecord ⟨"France", "Europe", 67390000, 42000, "mature"⟩ 2018 1
    ⟨0, 0, 0, 0, 0⟩).Arrivals = 606510 := by with_unfolding_all decide

/-- The random draws one hotel-bookings row consumes, in source order
(lines 226-248): booking rate `uniform(0.6,0.9)`, the seasonal ADR factor
(`uniform(1.3,1.8)` in peak months, `uniform(0.7,1.2)` otherwise), and the
occupancy `uniform(0.4,0.95)`; all as unit-interval draws. -/
structure HotelDraws where
  uBooking : ℚ
  uAdr : ℚ
  uOcc : ℚ
deriving DecidableEq, Repr

/-- One row of the hotel-bookings table (lines 250-261). -/
structure HotelRecord where
  Country : String
  Country_Code : String
  Region : String
  Year : ℕ
  Month : ℕ
  Hotel_Bookings : ℤ
  Average_Daily_Rate : ℚ
  Occupancy_Rate : ℚ
  Revenue : ℚ
  Tourism_Maturity : String
deriving DecidableEq, Repr

/-- `base_adr` (lines 232-236): 10% of GDP per capita, scaled by maturity. -/
def hotel_base_adr (r : ArrivalRecord) : ℚ :=
  if r.Tourism_Maturity = "mature" then (r.GDP_Per_Capita : ℚ) * 0.1 * 1.2
  else if r.Tourism_Maturity = "emerging" then (r.GDP_Per_Capita : ℚ) * 0.1 * 0.8
  else (r.GDP_Per_Capita : ℚ) * 0.1

/-- Pre-rounding ADR for a row (lines 238-242). -/
def hotel_adr (r : ArrivalRecord) (d : HotelDraws) : ℚ :=
  if is_peak_month r.Month then hotel_base_adr r * unifDraw 1.3 1.8 d.uAdr
  else hotel_base_adr r * unifDraw 0.7 1.2 d.uAdr

/-- `bookings = int(row['Arrivals'] * booking_rate)` (lines 228-229). -/
def hotel_bookings (r : ArrivalRecord) (d : HotelDraws) : ℤ :=
  pyInt ((r.Arrivals : ℚ) * unifDraw 0.6 0.9 d.uBooking)

/-- One row of `generate_hotel_bookings_dataset`'s loop body (lines 226-261). -/
def hotel_row (r : ArrivalRecord) (d : HotelDraws) : HotelRecord where
  Country := r.Country
  Country_Code := r.Country_Code
  Region := r.Region
  Year := r.Year
  Month := r.Month
  Hotel_Bookings := hotel_bookings r d
  Average_Daily_Rate := pyRound 2 (hotel_adr r d)
  Occupancy_Rate := pyRound 3 (unifDraw 0.4 0.95 d.uOcc)
  Revenue := pyRound 2 ((hotel_bookings r d : ℚ) * hotel_adr r d * unifDraw 0.4 0.95 d.uOcc)
  Tourism_Maturity := r.Tourism_Maturity

/-- The random draws one flight-data row consumes, in source order
(lines 271-296): capacity factor `uniform(1.2,1.8)`, load factor
`uniform(0.6,0.95)`, seasonal ticket-price factor. -/
structure FlightDraws where
  uCap : ℚ
  uLoad : ℚ
  uTicket : ℚ
deriving DecidableEq, Repr

/-- One row of the flight-data table (lines 298-310). -/
structure FlightRecord where
  Country : String
  Country_Code : String
  Region : String
  Year : ℕ
  Month : ℕ
  Flight_Capacity : ℤ
  Passengers : ℤ
  Load_Factor : ℚ
  Average_Ticket_Price : ℚ
  Revenue : ℚ
  Tourism_Maturity : String
deriving DecidableEq, Repr

/-- `capacity = int(row['Arrivals'] * capacity_factor)` (lines 273-274). -/
def flight_capacity (r : ArrivalRecord) (d : FlightDraws) : ℤ :=
  pyInt ((r.Arrivals : ℚ) * unifDraw 1.2 1.8 d.uCap)

/-- `passengers = int(capacity * load_factor)` (lines 277-280). -/
def flight_passengers (r : ArrivalRecord) (d : FlightDraws) : ℤ :=
  pyInt ((flight_capacity r d : ℚ) * unifDraw 0.6 0.95 d.uLoad)

/-- `base_ticket_price` (lines 283-287): 5% of GDP per capita, scaled 0.8 for
Europe and 1.5 for Asia/Oceania. -/
def flight_base_ticket_price (r : ArrivalRecord) : ℚ :=
  if r.Region = "Europe" then (r.GDP_Per_Capita : ℚ) * 0.05 * 0.8
  else if r.Region = "Asia" ∨ r.Region = "Oceania" then (r.GDP_Per_Capita : ℚ) * 0.05 * 1.5
  else (r.GDP_Per_Capita : ℚ) * 0.05

/-- Pre-rounding ticket price (lines 289-293). -/
def flight_ticket_price (r : ArrivalRecord) (d : FlightDraws) : ℚ :=
  if is_peak_month r.Month then flight_base_ticket_price r * unifDraw 1.2 1.6 d.uTicket
  else flight_base_ticket_price r * unifDraw 0.8 1.1 d.uTicket

/-- One row of `generate_flight_data_dataset`'s loop body (lines 271-310). -/
def flight_row (r : ArrivalRecord) (d : FlightDraws) : FlightRecord where
  Country := r.Country
  Country_Code := r.Country_Code
  Region := r.Region
  Year := r.Year
  Month := r.Month
  Flight_Capacity := flight_capacity r d
  Passengers := flight_passengers r d
  Load_Factor := pyRound 3 (unifDraw 0.6 0.95 d.uLoad)
  Average_Ticket_Price := pyRound 2 (flight_ticket_price r d)
  Revenue := pyRound 2 ((flight_passengers r d : ℚ) * flight_ticket_price r d)
  Tourism_Maturity := r.Tourism_Maturity

/-- The random draws one tourism-revenue row consumes, in source order
(lines 320-342): seasonal revenue-per-tourist factor, then the four revenue
share draws (accommodation, transportation, food & beverage, activities). -/
structure RevenueDraws where
  uRpt : ℚ
  uAccom : ℚ
  uTransp : ℚ
  uFood : ℚ
  uActiv : ℚ
deriving DecidableEq, Repr

/-- One row of the tourism-revenue table (lines 344-357). -/
structure RevenueRecord where
  Country : String
  Country_Code : String
  Region : String
  Year : ℕ
  Month : ℕ
  Total_Revenue : ℚ
  Accommodation_Revenue : ℚ
  Transportation_Revenue : ℚ
  Food_Beverage_Revenue : ℚ
  Activities_Revenue : ℚ
  Revenue_Per_Tourist : ℚ
  Tourism_Maturity : String
deriving DecidableEq, Repr

/-- `base_revenue_per_tourist` (lines 322-327): 30% of GDP per capita, scaled
1.3 for mature / 0.7 for emerging maturity. -/
def revenue_base_per_tourist (r : ArrivalRecord) : ℚ :=
  if r.Tourism_Maturity = "mature" then (r.GDP_Per_Capita : ℚ) * 0.3 * 1.3
  else if r.Tourism_Maturity = "emerging" then (r.GDP_Per_Capita : ℚ) * 0.3 * 0.7
  else (r.GDP_Per_Capita : ℚ) * 0.3

/-- Pre-rounding revenue per tourist (lines 329-333). -/
def revenue_per_tourist (r : ArrivalRecord) (d : RevenueDraws) : ℚ :=
  if is_peak_month r.Month then revenue_base_per_tourist r * unifDraw 1.2 1.5 d.uRpt
  else revenue_base_per_tourist r * unifDraw 0.8 1.1 d.uRpt

/-- `total_revenue = row['Arrivals'] * revenue_per_tourist` (line 336). -/
def revenue_total (r : ArrivalRecord) (d : RevenueDraws) : ℚ :=
  (r.Arrivals : ℚ) * revenue_per_tourist r d

/-- One row of `generate_tourism_revenue_dataset`'s loop body (lines 320-357). -/
def revenue_row (r : ArrivalRecord) (d : RevenueDraws) : RevenueRecord where
  Country := r.Country
  Country_Code := r.Country_Code
  Region := r.Region
  Year := r.Year
  Month := r.Month
  Total_Revenue := pyRound 2 (revenue_total r d)
  Accommodation_Revenue := pyRound 2 (revenue_total r d * unifDraw 0.3 0.5 d.uAccom)
  Transportation_Revenue := pyRound 2 (revenue_total r d * unifDraw 0.2 0.3 d.uTransp)
  Food_Beverage_Revenue := pyRound 2 (revenue_total r d * unifDraw 0.15 0.25 d.uFood)
  Activities_Revenue := pyRound 2 (revenue_total r d * unifDraw 0.1 0.2 d.uActiv)
  Revenue_Per_Tourist := pyRound 2 (revenue_per_tourist r d)
  Tourism_Maturity := r.Tourism_Maturity

/-- Iterate a per-row generator over the base table (`for _, row in
tourism_df.iterrows()`), numbering rows from `i` so that each row receives its
own draws from the run's seeded stream. -/
def map_with_draws {D R : Type} (row : ArrivalRecord → D → R) (rng : ℕ → D) :
    ℕ → List ArrivalRecord → List R
  | _, [] => []
  | i, r :: rs => row r (rng i) :: map_with_draws row rng (i + 1) rs

/-- `generate_hotel_bookings_dataset` (lines 220-263). -/
def generate_hotel_bookings_dataset (rng : ℕ → HotelDraws)
    (tourism_df : List ArrivalRecord) : List HotelRecord :=
  map_with_draws hotel_row rng 0 tourism_df

/-- `generate_flight_data_dataset` (lines 265-312). -/
def generate_flight_data_dataset (rng : ℕ → FlightDraws)
    (tourism_df : List ArrivalRecord) : List FlightRecord :=
  map_with_draws flight_row rng 0 tourism_df

/-- `generate_tourism_revenue_dataset` (lines 314-359). -/
def generate_tourism_revenue_dataset (rng : ℕ → RevenueDraws)
    (tourism_df : List ArrivalRecord) : List RevenueRecord :=
  map_with_draws revenue_row rng 0 tourism_df

/-- The (Country, Year, Month) key of a hotel-bookings record. -/
def hotel_key (r : HotelRecord) : String × ℕ × ℕ := (r.Country, r.Year, r.Month)

/-- The (Country, Year, Month) key of a flight-data record. -/
def flight_key (r : FlightRecord) : String × ℕ × ℕ := (r.Country, r.Year, r.Month)

/-- The (Country, Year, Month) key of a tourism-revenue record. -/
def revenue_key (r : RevenueRecord) : String × ℕ × ℕ := (r.Country, r.Year, r.Month)

/-!
Embedding of `compatibility_check.py`.

The verifier loads the generated base table into an in-memory SQLite store and
runs a fixed battery of queries.  Query execution is modelled by a function
`Query → Except String (Option ℤ)`: `.error msg` models the query raising an
exception, `.ok v` models success, with `v` the headline value the script
prints (the record count for the basic `SELECT COUNT(*)`, the aggregate value
or number of result rows otherwise; `none` models SQL `NULL`).  `exec_on_table`
is the reference executor: the semantics of the fixed battery against a loaded
table.  All queries of the battery are valid aggregate SQL over the loaded
schema, so against an actual table every one of them succeeds (SQLite returns
`NULL`-rows or empty groupings for an empty table rather than raising), which
is why `exec_on_table` never returns `.error`.
-/

/-- The fixed battery of `compatibility_check.py`, in execution order:
the five basic checks of `test_sql_compatibility` (lines 32-89), the three
solution checks of `test_specific_sql_solutions` (lines 99-153), and the three
queries of `analyze_data_quality` (lines 161-193). -/
inductive Query
  | basic_select
  | year_range
  | peak_off
  | growth_calc
  | regional
  | sol1
  | sol3
  | sol4
  | dq_nulls
  | dq_years
  | dq_geo
deriving DecidableEq, Repr

/-- Distinct values of a projection, in first-occurrence order (SQL `DISTINCT`). -/
def distinctVals {β : Type} [DecidableEq β] (t : List ArrivalRecord)
    (f : ArrivalRecord → β) : List β :=
  (t.map f).dedup

/-- Reference semantics of the battery against a loaded table.  The payload is
the headline number the script prints for the query; the `.error` constructor
of the result type is never used because every query of the battery executes
successfully against a loaded table. -/
def exec_on_table (t : List ArrivalRecord) : Query → Except String (Option ℤ)
  | .basic_select => .ok (some t.length)
  | .year_range => .ok (if t.isEmpty then none
      else some ((t.map fun r => (r.Year : ℤ)).foldr max 0))
  | .peak_off => .ok (some (min 5 (distinctVals t (·.Country)).length))
  | .growth_calc => .ok (some (min 10
      (((t.filter fun r => 2020 ≤ r.Year).map fun r => (r.Country, r.Year)).dedup).length))
  | .regional => .ok (some (distinctVals t (·.Region)).length)
  | .sol1 => .ok (some (min 5
      (let maxY := (t.map fun r => r.Year).foldr max 0
       let pairs := ((t.filter fun r => maxY - 2 ≤ r.Year).map fun r => (r.Country, r.Year)).dedup
       ((pairs.map Prod.fst).dedup.filter fun c =>
         (pairs.filter fun p => p.1 = c).length = 3).length)))
  | .sol3 => .ok (some (min 5 ((distinctVals t (·.Country)).filter fun c =>
      0 < ((t.filter fun r => r.Country = c).map (·.Off_Season_Arrivals)).sum).length))
  | .sol4 => .ok (some (min 5
      (let maxY := (t.map fun r => r.Year).foldr max 0
       (distinctVals (t.filter fun r => r.Year = maxY) (·.Country)).length)))
  | .dq_nulls => .ok (some t.length)
  | .dq_years => .ok (some (distinctVals t (·.Year)).length)
  | .dq_geo => .ok (some (distinctVals t (·.Country)).length)

/-- Whether an execution outcome is a success (the `try` block completed). -/
def execOk {α : Type} : Except String α → Bool
  | .ok _ => true
  | .error _ => false

/-- `test_sql_compatibility` (lines 26-91): each of the five basic checks is
wrapped in `try/except`, but every `except` branch does `return False`, so the
first failing check ends the function.  The result is the returned flag
together with the checks that were attempted, in order. -/
def test_sql_compatibility (exec : Query → Except String (Option ℤ)) :
    Bool × List Query :=
  match exec .basic_select with
  | .error _ => (false, [.basic_select])
  | .ok _ =>
  match exec .year_range with
  | .error _ => (false, [.basic_select, .year_range])
  | .ok _ =>
  match exec .peak_off with
  | .error _ => (false, [.basic_select, .year_range, .peak_off])
  | .ok _ =>
  match exec .growth_calc with
  | .error _ => (false, [.basic_select, .year_range, .peak_off, .growth_calc])
  | .ok _ =>
  match exec .regional with
  | .error _ => (false, [.basic_select, .year_range, .peak_off, .growth_calc, .regional])
  | .ok _ => (true, [.basic_select, .year_range, .peak_off, .growth_calc, .regional])

/-- `test_specific_sql_solutions` (lines 93-153): all three solution checks
run unconditionally; each `except` branch only prints, so a failure is
recorded and the next check still runs.  The result pairs each check with
whether it succeeded. -/
def test_specific_sql_solutions (exec : Query → Except String (Option ℤ)) :
    List (Query × Bool) :=
  [(.sol1, execOk (exec .sol1)),
   (.sol3, execOk (exec .sol3)),
   (.sol4, execOk (exec .sol4))]

/-- `analyze_data_quality` (lines 155-193): three queries, no `try/except`;
an exception propagates and kills the run, so execution stops at the first
failing query.  Returns whether it completed and the attempted queries. -/
def analyze_data_quality (exec : Query → Except String (Option ℤ)) :
    Bool × List Query :=
  match exec .dq_nulls with
  | .error _ => (false, [.dq_nulls])
  | .ok _ =>
  match exec .dq_years with
  | .error _ => (false, [.dq_nulls, .dq_years])
  | .ok _ =>
  match exec .dq_geo with
  | .error _ => (false, [.dq_nulls, .dq_years, .dq_geo])
  | .ok _ => (true, [.dq_nulls, .dq_years, .dq_geo])

/-- Outcome of a verifier run: the queries attempted in order, whether the
basic battery passed, the per-check results of the solution battery, and
whether the run reached its normal end. -/
structure VerifierRun where
  ranChecks : List Query
  basicPassed : Bool
  specificResults : List (Query × Bool)
  completed : Bool
deriving DecidableEq, Repr

/-- `main` of `compatibility_check.py` (lines 256-299): abort if the input file
is missing (taxonomy (a)); run the basic battery and return immediately if it
reports failure; otherwise run the solution battery and the data-quality
queries. -/
def compatibility_main (fileExists : Bool)
    (exec : Query → Except String (Option ℤ)) : VerifierRun :=
  if fileExists = false then ⟨[], false, [], false⟩
  else
    match test_sql_compatibility exec with
    | (false, ran) => ⟨ran, false, [], false⟩
    | (true, ran) =>
      let specs := test_specific_sql_solutions exec
      match analyze_data_quality exec with
      | (dqOk, dqRan) => ⟨ran ++ specs.map Prod.fst ++ dqRan, true, specs, dqOk⟩

/-!
Helper lemmas about the embedding.
-/

lemma pyInt_of_nonneg {q : ℚ} (h : 0 ≤ q) : pyInt q = ⌊q⌋ := by
  unfold pyInt
  rw [if_neg (not_lt.mpr h)]

lemma pyInt_nonneg {q : ℚ} (h : 0 ≤ q) : 0 ≤ pyInt q := by
  rw [pyInt_of_nonneg h]
  exact Int.le_floor.mpr (by exact_mod_cast h)

lemma abs_pyRoundInt_sub_le (y : ℚ) : |(pyRoundInt y : ℚ) - y| ≤ 1/2 := by
  have hfl : (⌊y⌋ : ℚ) ≤ y := Int.floor_le y
  have hfu : y < (⌊y⌋ : ℚ) + 1 := Int.lt_floor_add_one y
  unfold pyRoundInt
  split_ifs with h1 h2 h3 <;> rw [abs_le] <;> constructor <;> push_cast <;> linarith

lemma abs_pyRound_sub_le (n : ℕ) (q : ℚ) : |pyRound n q - q| ≤ 1 / (2 * 10 ^ n) := by
  have h10 : (0 : ℚ) < 10 ^ n := by positivity
  have hrw : pyRound n q - q = ((pyRoundInt (q * 10 ^ n) : ℚ) - q * 10 ^ n) / 10 ^ n := by
    unfold pyRound
    field_simp
    ring
  rw [hrw, abs_div, abs_of_pos h10, div_le_iff₀ h10]
  have h2 : 1 / (2 * 10 ^ n) * 10 ^ n = (1 : ℚ) / 2 := by
    field_simp
    ring
  rw [h2]
  exact abs_pyRoundInt_sub_le (q * 10 ^ n)

lemma raw_arrivals_nonneg (c : Country) (year month : ℕ) (z : ℚ) :
    0 ≤ raw_arrivals c year month z :=
  le_max_left 0 _

lemma buildAux_length (rng : ℕ → Draws) :
    ∀ (i : ℕ) (l : List (Country × ℕ × ℕ)), (buildAux rng i l).length = l.length := by
  intro i l
  induction l generalizing i with
  | nil => rfl
  | cons t ts ih => simp [buildAux, ih]

lemma buildAux_map_key (rng : ℕ → Draws) :
    ∀ (i : ℕ) (l : List (Country × ℕ × ℕ)),
      (buildAux rng i l).map arrival_key = l.map fun t => (t.1.name, t.2.1, t.2.2) := by
  intro i l
  induction l generalizing i with
  | nil => rfl
  | cons t ts ih => simp [buildAux, ih, arrival_key, mkRecord]

lemma buildAux_const (d : Draws) :
    ∀ (i : ℕ) (l : List (Country × ℕ × ℕ)),
      buildAux (fun _ => d) i l = l.map fun t => mkRecord t.1 t.2.1 t.2.2 d := by
  intro i l
  induction l generalizing i with
  | nil => rfl
  | cons t ts ih => simp [buildAux, ih]

lemma buildAux_all (p : ArrivalRecord → Bool)
    (h : ∀ c y m d, c ∈ countries_data → p (mkRecord c y m d) = true)
    (rng : ℕ → Draws) :
    ∀ (i : ℕ) (l : List (Country × ℕ × ℕ)),
      (∀ t ∈ l, t.1 ∈ countries_data) → (buildAux rng i l).all p = true := by
  intro i l
  induction l generalizing i with
  | nil => intro _; rfl
  | cons t ts ih =>
    intro hl
    rw [buildAux, List.all_cons, Bool.and_eq_true]
    exact ⟨h t.1 t.2.1 t.2.2 (rng i) (hl t (List.mem_cons_self t ts)),
      ih (i + 1) fun s hs => hl s (List.mem_cons_of_mem t hs)⟩

lemma indexRows_fst_mem : ∀ t ∈ indexRows, t.1 ∈ countries_data := by
  intro t ht
  simp only [indexRows, List.mem_flatMap, List.mem_map] at ht
  obtain ⟨c, hc, y, _, m, _, rfl⟩ := ht
  exact hc

lemma length_flatMap_const {α β : Type} (l : List α) (f : α → List β) (n : ℕ)
    (h : ∀ a ∈ l, (f a).length = n) : (l.flatMap f).length = l.length * n := by
  induction l with
  | nil => simp
  | cons a as ih =>
    rw [List.flatMap_cons, List.length_append, h a (List.mem_cons_self a as),
      ih fun b hb => h b (List.mem_cons_of_mem a hb), List.length_cons]
    ring

lemma indexRows_length : indexRows.length = 3900 := by
  rw [indexRows, length_flatMap_const _ _ 60]
  · norm_num [countries_data]
  · intro c _
    rw [length_flatMap_const _ _ 12]
    · rfl
    · intro y _
      rfl

lemma map_with_draws_length {D R : Type} (row : ArrivalRecord → D → R) (rng : ℕ → D) :
    ∀ (i : ℕ) (l : List ArrivalRecord), (map_with_draws row rng i l).length = l.length := by
  intro i l
  induction l generalizing i with
  | nil => rfl
  | cons r rs ih => simp [map_with_draws, ih]

lemma map_with_draws_getElem? {D R : Type} (row : ArrivalRecord → D → R) (rng : ℕ → D) :
    ∀ (l : List ArrivalRecord) (k i : ℕ),
      (map_with_draws row rng k l)[i]? = (l[i]?).map fun r => row r (rng (k + i)) := by
  intro l
  induction l with
  | nil => intro k i; simp [map_with_draws]
  | cons r rs ih =>
    intro k i
    cases i with
    | zero => simp [map_with_draws]
    | succ j =>
      rw [map_with_draws]
      simp only [List.getElem?_cons_succ]
      have hk : k + 1 + j = k + (j + 1) := by omega
      rw [ih (k + 1) j, hk]

lemma map_with_draws_map {D R β : Type} (row : ArrivalRecord → D → R) (rng : ℕ → D)
    (g : R → β) (g' : ArrivalRecord → β) (h : ∀ r d, g (row r d) = g' r) :
    ∀ (i : ℕ) (l : List ArrivalRecord),
      (map_with_draws row rng i l).map g = l.map g' := by
  intro i l
  induction l generalizing i with
  | nil => rfl
  | cons r rs ih => simp [map_with_draws, ih, h]

/-!
Fixtures and further structural lemmas used by the claim theorems.
-/

/-- All-zero draws: zero Gaussian perturbations, all unit-uniform draws at the
lower end of their ranges. -/
def dZero : Draws := ⟨0, 0, 0, 0, 0⟩

/-- A run whose every record receives the all-zero draws. -/
def zeroRng : ℕ → Draws := fun _ => dZero

/-- The `Bahamas` entry of `countries_data` (line 45 of the source). -/
def bahamas : Country := ⟨"Bahamas", "Caribbean", 393000, 32000, "mature"⟩

/-- The hypothetical country of the spec's concrete scenario: population
1,000,000, maturity `mature`, in a region with multiplier 1.0 (North America). -/
def mature_test_country : Country := ⟨"Testland", "North America", 1000000, 0, "mature"⟩

/-- The same hypothetical country with `emerging` maturity. -/
def emerging_test_country : Country := ⟨"Testland", "North America", 1000000, 0, "emerging"⟩

/-- Positions of the base-table draws in the run's seeded stream: the source
consumes five draws per record, records in iteration order. -/
def seeded_base_draws (stream : ℕ → ℚ) (i : ℕ) : Draws :=
  ⟨stream (5 * i), stream (5 * i + 1), stream (5 * i + 2),
   stream (5 * i + 3), stream (5 * i + 4)⟩

/-- Hotel draws follow the 19500 base-table draws, three per row. -/
def seeded_hotel_draws (stream : ℕ → ℚ) (i : ℕ) : HotelDraws :=
  ⟨stream (19500 + 3 * i), stream (19500 + 3 * i + 1), stream (19500 + 3 * i + 2)⟩

/-- Flight draws follow the hotel draws, three per row. -/
def seeded_flight_draws (stream : ℕ → ℚ) (i : ℕ) : FlightDraws :=
  ⟨stream (31200 + 3 * i), stream (31200 + 3 * i + 1), stream (31200 + 3 * i + 2)⟩

/-- Revenue draws follow the flight draws, five per row. -/
def seeded_revenue_draws (stream : ℕ → ℚ) (i : ℕ) : RevenueDraws :=
  ⟨stream (42900 + 5 * i), stream (42900 + 5 * i + 1), stream (42900 + 5 * i + 2),
   stream (42900 + 5 * i + 3), stream (42900 + 5 * i + 4)⟩

/-- One full run of `main` of `generate_tourism_dataset.py` (lines 361-412):
seed the pseudo-random source once, then generate the base table and the three
derived tables from the resulting stream.  `prng` is the PRNG algorithm
(mapping a seed to a stream of draws), `seed` the seed — the only inputs;
everything else is static reference data. -/
def run_generation (prng : ℕ → ℕ → ℚ) (seed : ℕ) :
    List ArrivalRecord × List HotelRecord × List FlightRecord × List RevenueRecord :=
  let stream := prng seed
  let tourism_df := generate_tourism_dataset (seeded_base_draws stream)
  (tourism_df,
   generate_hotel_bookings_dataset (seeded_hotel_draws stream) tourism_df,
   generate_flight_data_dataset (seeded_flight_draws stream) tourism_df,
   generate_tourism_revenue_dataset (seeded_revenue_draws stream) tourism_df)

/-- The whole battery in the order `main` attempts it. -/
def battery_order : List Query :=
  [.basic_select, .year_range, .peak_off, .growth_calc, .regional,
   .sol1, .sol3, .sol4, .dq_nulls, .dq_years, .dq_geo]

/-- An executor whose second basic check (the `MAX(Year)` query) raises and
whose other queries succeed. -/
def exec_fail_year_range : Query → Except String (Option ℤ) :=
  fun q => if q = .year_range then .error "simulated query failure" else .ok (some 0)

lemma pop_pos : ∀ c ∈ countries_data, 0 < c.population := by decide

/-- The expected key list: every country name with every year and month, in
iteration order. -/
def all_keys : List (String × ℕ × ℕ) :=
  countries_data.flatMap fun c => years.flatMap fun y => months.map fun m => (c.name, y, m)

lemma generate_map_key (rng : ℕ → Draws) :
    (generate_tourism_dataset rng).map arrival_key = all_keys := by
  rw [generate_tourism_dataset, buildAux_map_key rng 0 indexRows, indexRows, all_keys]
  simp only [List.map_flatMap, List.map_map]
  rfl

lemma inner_keys_nodup (c : Country) :
    (years.flatMap fun y => months.map fun m => (c.name, y, m)).Nodup := by
  rw [List.nodup_flatMap]
  constructor
  · intro y _
    refine List.Nodup.map ?_ (by decide)
    intro m1 m2 h
    simpa using h
  · have hy : years.Pairwise (· ≠ ·) := by decide
    refine hy.imp ?_
    intro y1 y2 hne k h1 h2
    simp only [List.mem_map] at h1 h2
    obtain ⟨m1, _, rfl⟩ := h1
    obtain ⟨m2, _, heq⟩ := h2
    simp only [Prod.mk.injEq] at heq
    exact hne heq.2.1.symm

lemma all_keys_nodup : all_keys.Nodup := by
  rw [all_keys, List.nodup_flatMap]
  constructor
  · intro c _
    exact inner_keys_nodup c
  · have hn : countries_data.Pairwise (fun a b => a.name ≠ b.name) := by decide
    refine hn.imp ?_
    intro c1 c2 hne k h1 h2
    simp only [List.mem_flatMap, List.mem_map] at h1 h2
    obtain ⟨y1, _, m1, _, rfl⟩ := h1
    obtain ⟨y2, _, m2, _, heq⟩ := h2
    simp only [Prod.mk.injEq] at heq
    exact hne heq.1.symm

/-!
Claim theorems.
-/

/-- C1: generation is a deterministic function of the seed and the static
reference data.  A run is `run_generation prng seed` — the PRNG algorithm
applied to the seed is the only source of randomness (the source seeds
NumPy's global generator once, lines 7-9, and never touches system entropy) —
so two runs with the same PRNG and the same seed produce the identical base
arrivals table and the identical three derived tables, record for record. -/
theorem claim_C1_determinism :
    ∀ (prng : ℕ → ℕ → ℚ) (seed1 seed2 : ℕ), seed1 = seed2 →
      run_generation prng seed1 = run_generation prng seed2 := by
  intro prng seed1 seed2 h
  rw [h]

/-- Witness for C1 at a concrete PRNG and the source's seed 42. -/
theorem claim_C1_determinism_witness :
    run_generation (fun _ _ => 0) 42 = run_generation (fun _ _ => 0) 42 :=
  claim_C1_determinism (fun _ _ => 0) 42 42 rfl

/-- C2: for every base table, each derived-table generator returns a table with
exactly as many rows, with the identical (Country, Year, Month) key sequence
(hence the identical key set), and with row `i` computed from base row `i` and
that row's own draws alone. -/
theorem claim_C2_derived_alignment :
    ∀ (rngH : ℕ → HotelDraws) (rngF : ℕ → FlightDraws) (rngR : ℕ → RevenueDraws)
      (tourism_df : List ArrivalRecord),
      ((generate_hotel_bookings_dataset rngH tourism_df).length = tourism_df.length ∧
        (generate_hotel_bookings_dataset rngH tourism_df).map hotel_key
          = tourism_df.map arrival_key ∧
        ∀ i : ℕ, (generate_hotel_bookings_dataset rngH tourism_df)[i]?
          = (tourism_df[i]?).map fun r => hotel_row r (rngH i)) ∧
      ((generate_flight_data_dataset rngF tourism_df).length = tourism_df.length ∧
        (generate_flight_data_dataset rngF tourism_df).map flight_key
          = tourism_df.map arrival_key ∧
        ∀ i : ℕ, (generate_flight_data_dataset rngF tourism_df)[i]?
          = (tourism_df[i]?).map fun r => flight_row r (rngF i)) ∧
      ((generate_tourism_revenue_dataset rngR tourism_df).length = tourism_df.length ∧
        (generate_tourism_revenue_dataset rngR tourism_df).map revenue_key
          = tourism_df.map arrival_key ∧
        ∀ i : ℕ, (generate_tourism_revenue_dataset rngR tourism_df)[i]?
          = (tourism_df[i]?).map fun r => revenue_row r (rngR i)) := by
  intro rngH rngF rngR t
  refine ⟨⟨?_, ?_, ?_⟩, ⟨?_, ?_, ?_⟩, ⟨?_, ?_, ?_⟩⟩
  · exact map_with_draws_length _ _ 0 t
  · exact map_with_draws_map hotel_row rngH hotel_key arrival_key (fun r d => rfl) 0 t
  · intro i
    rw [generate_hotel_bookings_dataset, map_with_draws_getElem? _ _ t 0 i]
    simp only [Nat.zero_add]
  · exact map_with_draws_length _ _ 0 t
  · exact map_with_draws_map flight_row rngF flight_key arrival_key (fun r d => rfl) 0 t
  · intro i
    rw [generate_flight_data_dataset, map_with_draws_getElem? _ _ t 0 i]
    simp only [Nat.zero_add]
  · exact map_with_draws_length _ _ 0 t
  · exact map_with_draws_map revenue_row rngR revenue_key arrival_key (fun r d => rfl) 0 t
  · intro i
    rw [generate_tourism_revenue_dataset, map_with_draws_getElem? _ _ t 0 i]
    simp only [Nat.zero_add]

/-- C6: every record of the base table has a non-negative arrivals value, and
the stored value is exactly the truncation of
`max(0, base_monthly * (1 + N(0,0.1)))` — the clamp to zero of the perturbed
monthly arrivals. -/
theorem claim_C6_arrivals_nonneg :
    ∀ rng : ℕ → Draws,
      ((generate_tourism_dataset rng).all fun r => decide (0 ≤ r.Arrivals)) = true ∧
      ∀ (c : Country) (y m : ℕ) (d : Draws),
        (mkRecord c y m d).Arrivals
          = ⌊max 0 (base_monthly c y m * (1 + normalDraw 0 0.1 d.zVar))⌋ := by
  intro rng
  constructor
  · refine buildAux_all _ ?_ rng 0 indexRows indexRows_fst_mem
    intro c y m d _
    simp only [decide_eq_true_eq]
    show 0 ≤ pyInt (raw_arrivals c y m d.zVar)
    exact pyInt_nonneg (raw_arrivals_nonneg c y m d.zVar)
  · intro c y m d
    show pyInt (raw_arrivals c y m d.zVar) = _
    rw [pyInt_of_nonneg (raw_arrivals_nonneg c y m d.zVar)]
    rfl

/-- C7: before perturbation, monthly arrivals are
`population * 0.1 * maturity_factor * regional_multiplier / 12 * seasonal
* year_multiplier` with maturity factor 1.5 for mature and 0.8 for emerging;
and for the concrete scenario — population 1,000,000, mature, regional
multiplier 1.0 (North America), month multiplier 1.0 (May), year multiplier
1.0 (2018), zero perturbation — the arrivals value is 12,500. -/
theorem claim_C7_monthly_formula :
    (∀ c : Country, c.tourism_maturity = "mature" → ∀ y m : ℕ,
        base_monthly c y m
          = (c.population : ℚ) * 0.1 * 1.5 * regional_multipliers c.region / 12
              * seasonal_multiplier c.region m * year_multipliers y) ∧
    (∀ c : Country, c.tourism_maturity = "emerging" → ∀ y m : ℕ,
        base_monthly c y m
          = (c.population : ℚ) * 0.1 * 0.8 * regional_multipliers c.region / 12
              * seasonal_multiplier c.region m * year_multipliers y) ∧
    regional_multipliers mature_test_country.region = 1 ∧
    seasonal_multiplier mature_test_country.region 5 = 1 ∧
    year_multipliers 2018 = 1 ∧
    base_monthly mature_test_country 2018 5 = 12500 ∧
    (mkRecord mature_test_country 2018 5 dZero).Arrivals = 12500 := by
  refine ⟨?_, ?_, ?_, ?_, ?_, ?_, ?_⟩
  · intro c hc y m
    rw [base_monthly, base_arrivals, if_pos hc]
  · intro c hc y m
    have hne : ¬ c.tourism_maturity = "mature" := by rw [hc]; decide
    rw [base_monthly, base_arrivals, if_neg hne, if_pos hc]
  · with_unfolding_all decide
  · with_unfolding_all decide
  · with_unfolding_all decide
  · rw [base_monthly, base_arrivals]
    simp [mature_test_country, regional_multipliers, seasonal_multiplier,
      seasonal_patterns, year_multipliers]
    norm_num
  · with_unfolding_all decide

/-- Witness for C7: both maturity hypotheses discharged on the concrete
scenario countries. -/
theorem claim_C7_monthly_formula_witness :
    (mature_test_country.tourism_maturity = "mature" ∧
      base_monthly mature_test_country 2018 5
        = (mature_test_country.population : ℚ) * 0.1 * 1.5
            * regional_multipliers mature_test_country.region / 12
            * seasonal_multiplier mature_test_country.region 5 * year_multipliers 2018) ∧
    (emerging_test_country.tourism_maturity = "emerging" ∧
      base_monthly emerging_test_country 2018 5
        = (emerging_test_country.population : ℚ) * 0.1 * 0.8
            * regional_multipliers emerging_test_country.region / 12
            * seasonal_multiplier emerging_test_country.region 5 * year_multipliers 2018) :=
  ⟨⟨rfl, claim_C7_monthly_formula.1 mature_test_country rfl 2018 5⟩,
   ⟨rfl, claim_C7_monthly_formula.2.1 emerging_test_country rfl 2018 5⟩⟩

/-- C8: for first-year (2018) records the stored growth rate is the `N(2,3)`
draw `2 + 3z` (rounded to one decimal for storage); for records of a later
year `y` it is `(yearFactor[y] - yearFactor[y-1]) / yearFactor[y-1] * 100`
plus the `N(0,5)` draw `5z`; and the growth rate is computed from the year
multipliers and the growth draw only — it does not depend on the country, the
month, or the draws that produce the generated arrivals. -/
theorem claim_C8_growth_rate :
    ∀ (c : Country) (m : ℕ) (d : Draws),
      (mkRecord c 2018 m d).Arrivals_Growth_Rate = pyRound 1 (2 + 3 * d.zGrowth) ∧
      (∀ y ∈ [2019, 2020, 2021, 2022], (mkRecord c y m d).Arrivals_Growth_Rate
          = pyRound 1 ((year_multipliers y - year_multipliers (y - 1))
              / year_multipliers (y - 1) * 100 + 5 * d.zGrowth)) ∧
      (∀ (c2 : Country) (y m2 : ℕ) (d2 : Draws), d.zGrowth = d2.zGrowth →
          (mkRecord c y m d).Arrivals_Growth_Rate
            = (mkRecord c2 y m2 d2).Arrivals_Growth_Rate) := by
  intro c m d
  refine ⟨?_, ?_, ?_⟩
  · show pyRound 1 (growth_rate_raw 2018 d.zGrowth) = _
    rw [growth_rate_raw, if_neg (by omega)]
    rfl
  · intro y hy
    show pyRound 1 (growth_rate_raw y d.zGrowth) = _
    rw [growth_rate_raw, if_pos (by fin_cases hy <;> omega)]
    rw [normalDraw, zero_add]
  · intro c2 y m2 d2 h
    show pyRound 1 (growth_rate_raw y d.zGrowth) = pyRound 1 (growth_rate_raw y d2.zGrowth)
    rw [h]

/-- Witness for C8: the later-year case at 2019 and the independence case,
with all hypotheses discharged concretely. -/
theorem claim_C8_growth_rate_witness :
    (2019 ∈ [2019, 2020, 2021, 2022] ∧
      (mkRecord mature_test_country 2019 1 dZero).Arrivals_Growth_Rate
        = pyRound 1 ((year_multipliers 2019 - year_multipliers (2019 - 1))
            / year_multipliers (2019 - 1) * 100 + 5 * dZero.zGrowth)) ∧
    (dZero.zGrowth = dZero.zGrowth ∧
      (mkRecord mature_test_country 2019 1 dZero).Arrivals_Growth_Rate
        = (mkRecord emerging_test_country 2019 2 dZero).Arrivals_Growth_Rate) :=
  ⟨⟨by decide, (claim_C8_growth_rate mature_test_country 1 dZero).2.1 2019 (by decide)⟩,
   ⟨rfl, (claim_C8_growth_rate mature_test_country 1 dZero).2.2
      emerging_test_country 2019 2 dZero rfl⟩⟩

/-- C10: every record's Country_Code is the first three characters of the
country name upper-cased, and the code does not identify a country uniquely:
the three distinct countries United States, United Kingdom and United Arab
Emirates of the static data all receive the code UNI. -/
theorem claim_C10_country_code :
    ∀ rng : ℕ → Draws,
      ((generate_tourism_dataset rng).all
          fun r => r.Country_Code == country_code r.Country) = true ∧
      country_code "United States" = "UNI" ∧
      country_code "United Kingdom" = "UNI" ∧
      country_code "United Arab Emirates" = "UNI" ∧
      ("United States" ≠ "United Kingdom" ∧ "United States" ≠ "United Arab Emirates" ∧
        "United Kingdom" ≠ "United Arab Emirates") ∧
      ("United States" ∈ countries_data.map Country.name ∧
        "United Kingdom" ∈ countries_data.map Country.name ∧
        "United Arab Emirates" ∈ countries_data.map Country.name) := by
  intro rng
  refine ⟨?_, by decide, by decide, by decide, by decide, by decide⟩
  refine buildAux_all _ ?_ rng 0 indexRows indexRows_fst_mem
  intro c y m d _
  show (country_code c.name == country_code c.name) = true
  simp

/-- C9: the base table of any run has exactly one record for each combination
of a country of the static data, a year 2018-2022 and a month 1-12: its key
sequence is exactly `all_keys`, which has no duplicates and contains a key iff
its components come from the static reference lists; there are 65 countries
and 60 * 65 = 3900 records. -/
theorem claim_C9_row_grid :
    ∀ rng : ℕ → Draws,
      (generate_tourism_dataset rng).length = 3900 ∧
      countries_data.length = 65 ∧
      (generate_tourism_dataset rng).length = 60 * countries_data.length ∧
      (generate_tourism_dataset rng).map arrival_key = all_keys ∧
      all_keys.Nodup ∧
      ∀ (n : String) (y m : ℕ),
        ((n, y, m) ∈ all_keys ↔
          n ∈ countries_data.map Country.name ∧ y ∈ years ∧ m ∈ months) := by
  intro rng
  have hlen : (generate_tourism_dataset rng).length = 3900 := by
    rw [generate_tourism_dataset, buildAux_length rng 0 indexRows, indexRows_length]
  refine ⟨hlen, by decide, ?_, generate_map_key rng, all_keys_nodup, ?_⟩
  · rw [hlen]
    decide
  · intro n y m
    simp only [all_keys, List.mem_flatMap, List.mem_map, Prod.mk.injEq]
    constructor
    · rintro ⟨c, hc, y2, hy2, m2, hm2, hn, hy, hm⟩
      subst hn hy hm
      exact ⟨⟨c, hc, rfl⟩, hy2, hm2⟩
    · rintro ⟨⟨c, hc, rfl⟩, hy, hm⟩
      exact ⟨c, hc, y, hy, m, hm, rfl, rfl, rfl⟩

lemma per_capita_bound (c : Country) (hpop : 0 < c.population) (y m : ℕ) (d : Draws) :
    |(mkRecord c y m d).Arrivals_Per_Capita
        - ((mkRecord c y m d).Arrivals : ℚ) / ((mkRecord c y m d).Population : ℚ)|
      ≤ 1 / 2000000 + 1 / ((mkRecord c y m d).Population : ℚ) := by
  have hpq : (0 : ℚ) < (c.population : ℚ) := by exact_mod_cast hpop
  show |pyRound 6 (raw_arrivals c y m d.zVar / (c.population : ℚ))
      - (pyInt (raw_arrivals c y m d.zVar) : ℚ) / (c.population : ℚ)|
    ≤ 1 / 2000000 + 1 / (c.population : ℚ)
  set a := raw_arrivals c y m d.zVar with ha
  have ha0 : 0 ≤ a := raw_arrivals_nonneg c y m d.zVar
  rw [pyInt_of_nonneg ha0]
  have h1 : |pyRound 6 (a / (c.population : ℚ)) - a / (c.population : ℚ)| ≤ 1 / 2000000 := by
    have h := abs_pyRound_sub_le 6 (a / (c.population : ℚ))
    have he : (1 : ℚ) / (2 * 10 ^ 6) = 1 / 2000000 := by norm_num
    rwa [he] at h
  have h2 : |a / (c.population : ℚ) - (⌊a⌋ : ℚ) / (c.population : ℚ)|
      ≤ 1 / (c.population : ℚ) := by
    rw [div_sub_div_same, abs_div, abs_of_pos hpq]
    have hf0 : (0 : ℚ) ≤ a - ⌊a⌋ := by linarith [Int.floor_le a]
    have hf1 : a - (⌊a⌋ : ℚ) ≤ 1 := by linarith [Int.lt_floor_add_one a]
    rw [abs_of_nonneg hf0]
    gcongr
  calc |pyRound 6 (a / (c.population : ℚ)) - (⌊a⌋ : ℚ) / (c.population : ℚ)|
      ≤ |pyRound 6 (a / (c.population : ℚ)) - a / (c.population : ℚ)|
          + |a / (c.population : ℚ) - (⌊a⌋ : ℚ) / (c.population : ℚ)| :=
        abs_sub_le _ _ _
    _ ≤ 1 / 2000000 + 1 / (c.population : ℚ) := add_le_add h1 h2

/-- C3 counterexample: the stored per-capita value is computed from the
pre-truncation arrivals float and then rounded to six decimals, while the
stored Arrivals is the truncated integer, so the identity
`Arrivals_Per_Capita = Arrivals / Population` can be off by up to one whole
arrival over the population.  Concretely, in a run with zero perturbations the
Bahamas record for January 2019 stores Arrivals = 4126 (from a raw value of
4126.5) and Arrivals_Per_Capita = 0.0105, which differ by
0.5 / 393000 ≈ 1.27e-6 — more than the 1e-6 tolerance (one unit in the last
stored decimal place, itself far above any floating-point epsilon). -/
theorem claim_C3_counterexample :
    ¬ ∀ (rng : ℕ → Draws), ∀ r ∈ generate_tourism_dataset rng,
        |r.Arrivals_Per_Capita - (r.Arrivals : ℚ) / (r.Population : ℚ)| ≤ 1 / 1000000 := by
  intro h
  have htab : generate_tourism_dataset zeroRng
      = indexRows.map fun t => mkRecord t.1 t.2.1 t.2.2 dZero :=
    buildAux_const dZero 0 indexRows
  have hkey : (bahamas, (2019 : ℕ), (1 : ℕ)) ∈ indexRows := by
    simp only [indexRows, List.mem_flatMap, List.mem_map]
    exact ⟨bahamas, by decide, 2019, by decide, 1, by decide, rfl⟩
  have hmem : mkRecord bahamas 2019 1 dZero ∈ generate_tourism_dataset zeroRng := by
    rw [htab]
    exact List.mem_map_of_mem _ hkey
  exact absurd (h zeroRng _ hmem) (by with_unfolding_all decide)

/-- C3 amended: for every record of any run,
`|Arrivals_Per_Capita - Arrivals / Population| ≤ 1/2000000 + 1/Population` —
the six-decimal rounding of the stored per-capita value plus the truncation of
the stored arrivals to an integer.  Exact equality within a floating-point
tolerance does not hold (see the counterexample). -/
theorem claim_C3_per_capita :
    ∀ rng : ℕ → Draws,
      ((generate_tourism_dataset rng).all fun r =>
        decide (|r.Arrivals_Per_Capita - (r.Arrivals : ℚ) / (r.Population : ℚ)|
          ≤ 1 / 2000000 + 1 / (r.Population : ℚ))) = true := by
  intro rng
  refine buildAux_all _ ?_ rng 0 indexRows indexRows_fst_mem
  intro c y m d hc
  rw [decide_eq_true_eq]
  exact per_capita_bound c (pop_pos c hc) y m d

/-- C4 counterexample: on a table with 0 rows the basic count query succeeds
with count 0 — it does not fail — and the verifier therefore does NOT halt: it
runs every subsequent check of the battery (none of the aggregate queries
raises on an empty table).  This refutes the claim that the verifier halts
without running any subsequent checks. -/
theorem claim_C4_counterexample :
    ¬ (exec_on_table [] Query.basic_select = .ok (some 0) →
        ∀ q ∈ (compatibility_main true (exec_on_table [])).ranChecks,
          q = Query.basic_select) := by
  intro h
  exact absurd (h rfl Query.year_range (by decide)) (by decide)

/-- C4 amended: on a table with 0 rows the basic count query returns 0 and the
verifier continues, attempting the whole battery in order and completing
normally; it halts early only when a query raises an execution error, which
none does on an empty table. -/
theorem claim_C4_empty_table :
    exec_on_table [] Query.basic_select = .ok (some 0) ∧
    (compatibility_main true (exec_on_table [])).ranChecks = battery_order ∧
    (compatibility_main true (exec_on_table [])).basicPassed = true ∧
    (compatibility_main true (exec_on_table [])).completed = true := by
  refine ⟨rfl, by decide, by decide, by decide⟩

/-- C5 counterexample: an execution error in the second basic check (the
`MAX(Year)` query) — not the first basic count check — also aborts the run:
the verifier attempts only the first two checks and never reaches the
remaining basic checks or the solution checks, refuting the claim that only a
failure of the first check halts the verifier. -/
theorem claim_C5_counterexample :
    execOk (exec_fail_year_range Query.year_range) = false ∧
    (compatibility_main true exec_fail_year_range).ranChecks
      = [Query.basic_select, Query.year_range] ∧
    Query.peak_off ∉ (compatibility_main true exec_fail_year_range).ranChecks ∧
    Query.sol1 ∉ (compatibility_main true exec_fail_year_range).ranChecks := by
  refine ⟨rfl, by decide, by decide, by decide⟩

lemma test_sql_fst_false (exec : Query → Except String (Option ℤ)) :
    ∀ q ∈ [Query.basic_select, Query.year_range, Query.peak_off,
      Query.growth_calc, Query.regional],
      execOk (exec q) = false → (test_sql_compatibility exec).1 = false := by
  intro q hq hfail
  fin_cases hq
  · rcases h1 : exec Query.basic_select with e | v
    · simp [test_sql_compatibility, h1]
    · rw [h1] at hfail
      simp [execOk] at hfail
  · rcases h1 : exec Query.basic_select with e | v
    · simp [test_sql_compatibility, h1]
    · rcases h2 : exec Query.year_range with e | v
      · simp [test_sql_compatibility, h1, h2]
      · rw [h2] at hfail
        simp [execOk] at hfail
  · rcases h1 : exec Query.basic_select with e | v
    · simp [test_sql_compatibility, h1]
    · rcases h2 : exec Query.year_range with e | v
      · simp [test_sql_compatibility, h1, h2]
      · rcases h3 : exec Query.peak_off with e | v
        · simp [test_sql_compatibility, h1, h2, h3]
        · rw [h3] at hfail
          simp [execOk] at hfail
  · rcases h1 : exec Query.basic_select with e | v
    · simp [test_sql_compatibility, h1]
    · rcases h2 : exec Query.year_range with e | v
      · simp [test_sql_compatibility, h1, h2]
      · rcases h3 : exec Query.peak_off with e | v
        · simp [test_sql_compatibility, h1, h2, h3]
        · rcases h4 : exec Query.growth_calc with e | v
          · simp [test_sql_compatibility, h1, h2, h3, h4]
          · rw [h4] at hfail
            simp [execOk] at hfail
  · rcases h1 : exec Query.basic_select with e | v
    · simp [test_sql_compatibility, h1]
    · rcases h2 : exec Query.year_range with e | v
      · simp [test_sql_compatibility, h1, h2]
      · rcases h3 : exec Query.peak_off with e | v
        · simp [test_sql_compatibility, h1, h2, h3]
        · rcases h4 : exec Query.growth_calc with e | v
          · simp [test_sql_compatibility, h1, h2, h3, h4]
          · rcases h5 : exec Query.regional with e | v
            · simp [test_sql_compatibility, h1, h2, h3, h4, h5]
            · rw [h5] at hfail
              simp [execOk] at hfail

lemma test_sql_snd_subset (exec : Query → Except String (Option ℤ)) :
    ∀ s ∈ (test_sql_compatibility exec).2,
      s ∈ [Query.basic_select, Query.year_range, Query.peak_off,
        Query.growth_calc, Query.regional] := by
  intro s hs
  rcases h1 : exec Query.basic_select with e | v
  · simp only [test_sql_compatibility, h1] at hs
    fin_cases hs
    decide
  · rcases h2 : exec Query.year_range with e | v
    · simp only [test_sql_compatibility, h1, h2] at hs
      fin_cases hs <;> decide
    · rcases h3 : exec Query.peak_off with e | v
      · simp only [test_sql_compatibility, h1, h2, h3] at hs
        fin_cases hs <;> decide
      · rcases h4 : exec Query.growth_calc with e | v
        · simp only [test_sql_compatibility, h1, h2, h3, h4] at hs
          fin_cases hs <;> decide
        · rcases h5 : exec Query.regional with e | v
          · simp only [test_sql_compatibility, h1, h2, h3, h4, h5] at hs
            fin_cases hs <;> decide
          · simp only [test_sql_compatibility, h1, h2, h3, h4, h5] at hs
            fin_cases hs <;> decide

lemma compatibility_main_of_basic_false (exec : Query → Except String (Option ℤ))
    (h : (test_sql_compatibility exec).1 = false) :
    (compatibility_main true exec).ranChecks = (test_sql_compatibility exec).2 := by
  rw [compatibility_main]
  rcases hts : test_sql_compatibility exec with ⟨b, ran⟩
  rw [hts] at h
  simp only at h
  subst h
  simp

/-- C5 amended: the three specific-solution checks are each caught per-query:
all three always run, each reported failed exactly when its query errors.  But
an execution error in ANY of the five basic compatibility checks — not only
the first basic count check — makes `test_sql_compatibility` report failure,
and the verifier then halts: no solution check is ever attempted. -/
theorem claim_C5_error_isolation :
    ∀ exec : Query → Except String (Option ℤ),
      ((test_specific_sql_solutions exec).map Prod.fst
        = [Query.sol1, Query.sol3, Query.sol4]) ∧
      (∀ q b, (q, b) ∈ test_specific_sql_solutions exec → b = execOk (exec q)) ∧
      (∀ q ∈ [Query.basic_select, Query.year_range, Query.peak_off,
          Query.growth_calc, Query.regional],
        execOk (exec q) = false →
          (test_sql_compatibility exec).1 = false ∧
          ∀ s ∈ [Query.sol1, Query.sol3, Query.sol4],
            s ∉ (compatibility_main true exec).ranChecks) := by
  intro exec
  refine ⟨rfl, ?_, ?_⟩
  · intro q b hqb
    rw [test_specific_sql_solutions] at hqb
    fin_cases hqb <;> rfl
  · intro q hq hfail
    have hfalse := test_sql_fst_false exec q hq hfail
    refine ⟨hfalse, ?_⟩
    intro s hs hmem
    rw [compatibility_main_of_basic_false exec hfalse] at hmem
    have := test_sql_snd_subset exec s hmem
    fin_cases hs <;> revert this <;> decide

/-- Witness for C5: the second basic check failing on the concrete executor
`exec_fail_year_range`; the halt conclusion instantiated there. -/
theorem claim_C5_error_isolation_witness :
    ((Query.year_range ∈ [Query.basic_select, Query.year_range, Query.peak_off,
        Query.growth_calc, Query.regional] ∧
      execOk (exec_fail_year_range Query.year_range) = false) ∧
    ((test_sql_compatibility exec_fail_year_range).1 = false ∧
      ∀ s ∈ [Query.sol1, Query.sol3, Query.sol4],
        s ∉ (compatibility_main true exec_fail_year_range).ranChecks)) ∧
    ((Query.sol3, execOk (exec_fail_year_range Query.sol3))
        ∈ test_specific_sql_solutions exec_fail_year_range ∧
      execOk (exec_fail_year_range Query.sol3)
        = execOk (exec_fail_year_range Query.sol3)) :=
  ⟨⟨⟨by decide, rfl⟩,
    (claim_C5_error_isolation exec_fail_year_range).2.2 Query.year_range
      (by decide) rfl⟩,
   ⟨by decide,
    (claim_C5_error_isolation exec_fail_year_range).2.1 Query.sol3
      (execOk (exec_fail_year_range Query.sol3)) (by decide)⟩⟩

/-- Witness for C2 at a concrete draw source and base table. -/
theorem claim_C2_derived_alignment_witness :
    (generate_hotel_bookings_dataset (fun _ => ⟨0, 0, 0⟩) []).length
      = ([] : List ArrivalRecord).length ∧
    (generate_flight_data_dataset (fun _ => ⟨0, 0, 0⟩) []).map flight_key
      = ([] : List ArrivalRecord).map arrival_key :=
  ⟨(claim_C2_derived_alignment (fun _ => ⟨0, 0, 0⟩) (fun _ => ⟨0, 0, 0⟩)
      (fun _ => ⟨0, 0, 0, 0, 0⟩) []).1.1,
   (claim_C2_derived_alignment (fun _ => ⟨0, 0, 0⟩) (fun _ => ⟨0, 0, 0⟩)
      (fun _ => ⟨0, 0, 0, 0, 0⟩) []).2.1.2.1⟩

/-- Witness for the amended C3 at the all-zero-draw run. -/
theorem claim_C3_per_capita_witness :
    ((generate_tourism_dataset zeroRng).all fun r =>
      decide (|r.Arrivals_Per_Capita - (r.Arrivals : ℚ) / (r.Population : ℚ)|
        ≤ 1 / 2000000 + 1 / (r.Population : ℚ))) = true :=
  claim_C3_per_capita zeroRng

/-- Witness for C6 at the all-zero-draw run and a concrete record. -/
theorem claim_C6_arrivals_nonneg_witness :
    ((generate_tourism_dataset zeroRng).all fun r => decide (0 ≤ r.Arrivals)) = true ∧
    (mkRecord bahamas 2019 1 dZero).Arrivals
      = ⌊max 0 (base_monthly bahamas 2019 1 * (1 + normalDraw 0 0.1 dZero.zVar))⌋ :=
  ⟨(claim_C6_arrivals_nonneg zeroRng).1,
   (claim_C6_arrivals_nonneg zeroRng).2 bahamas 2019 1 dZero⟩

/-- Witness for C9 at the all-zero-draw run and a concrete key. -/
theorem claim_C9_row_grid_witness :
    (generate_tourism_dataset zeroRng).length = 3900 ∧
    (("France", 2018, 1) ∈ all_keys ↔
      "France" ∈ countries_data.map Country.name ∧ 2018 ∈ years ∧ 1 ∈ months) :=
  ⟨(claim_C9_row_grid zeroRng).1,
   (claim_C9_row_grid zeroRng).2.2.2.2.2 "France" 2018 1⟩

/-- Witness for C10 at the all-zero-draw run. -/
theorem claim_C10_country_code_witness :
    ((generate_tourism_dataset zeroRng).all
        fun r => r.Country_Code == country_code r.Country) = true ∧
    country_code "United States" = "UNI" :=
  ⟨(claim_C10_country_code zeroRng).1, (claim_C10_country_code zeroRng).2.1⟩
